import Mathlib

set_option maxRecDepth 100000

/-!
Verification of the UIROBOT UIM gateway protocol core.

The definitions below are a shallow embedding of the repository sources:
  * `crc16`, `UIMessage.serialize`, `UIMessage.deserialize`  — src/uir/uimessage.py
  * `SimpleCANIdentifier`                                    — src/uir/simplecan.py
  * `SimUIGateway` responder (`handle_message` and friends)  — src/uir/device.py
  * the TCP/CAN bridge (`tcp_handle_packet`, `on_can_message`)
                                                             — src/uir/util/gateway.py
  * the legacy `UIDevice` responder (namespace `uir_gateway`) — uir_gateway.py

Bytes are modelled as `Nat` values below 256, byte strings as `List Nat`,
machine integers as `Nat` with explicit `% 256` and `/ 256` where the wire
layout demands it.  Python exceptions escaping a handler are modelled by an
`Option PyError` component of the handler result; state mutated before the
exception is raised is kept, matching Python object semantics.
-/

/-! ## CRC-16 (src/uir/uimessage.py, `crc16`) -/

/-- One inner-loop step of `crc16`:
`crc = (crc >> 1) ^ poly if (crc & 1) else crc >> 1`. -/
def crcShift (poly crc : Nat) : Nat :=
  if crc &&& 1 ≠ 0 then (crc >>> 1) ^^^ poly else crc >>> 1

/-- `crc16(data, poly=0xA001)`: start from 0xFFFF, per byte xor the byte in
and run eight LSB-first shift steps. -/
def crc16 (data : List Nat) (poly : Nat := 0xA001) : Nat :=
  data.foldl (fun crc byte => (crcShift poly)^[8] (crc ^^^ byte)) 0xFFFF

/-- Modelled from the spec: one step of the Modbus-A001 reference algorithm,
written with `% 2`, `/ 2` as the spec describes the LSB-first shift. -/
def crcModbusStep (crc : Nat) : Nat :=
  if crc % 2 = 1 then (crc / 2) ^^^ 0xA001 else crc / 2

/-- Modelled from the spec: `n` rounds of the reference shift step. -/
def crcModbusRounds : Nat → Nat → Nat
  | 0, crc => crc
  | n + 1, crc => crcModbusRounds n (crcModbusStep crc)

/-- Modelled from the spec: process the bytes, `crc ^= byte` then 8 rounds. -/
def crcModbusAux : Nat → List Nat → Nat
  | crc, [] => crc
  | crc, b :: rest => crcModbusAux (crcModbusRounds 8 (crc ^^^ b)) rest

/-- Modelled from the spec: the Modbus CRC-16 reference definition, initial
value 0xFFFF, polynomial 0xA001, no final XOR. -/
def crc16Modbus (data : List Nat) : Nat :=
  crcModbusAux 0xFFFF data

theorem crcShift_eq_modbusStep (c : Nat) : crcShift 0xA001 c = crcModbusStep c := by
  unfold crcShift crcModbusStep
  rw [Nat.and_one_is_mod, Nat.shiftRight_one]
  rcases Nat.mod_two_eq_zero_or_one c with h | h <;> simp [h]

theorem crcShift_iterate_eq_rounds (n c : Nat) :
    (crcShift 0xA001)^[n] c = crcModbusRounds n c := by
  induction n generalizing c with
  | zero => rfl
  | succ n ih =>
    rw [Function.iterate_succ_apply, crcModbusRounds, crcShift_eq_modbusStep, ih]

theorem crc16_foldl_eq_aux (data : List Nat) (crc : Nat) :
    data.foldl (fun crc byte => (crcShift 0xA001)^[8] (crc ^^^ byte)) crc =
      crcModbusAux crc data := by
  induction data generalizing crc with
  | nil => rfl
  | cons b rest ih =>
    rw [List.foldl_cons]
    rw [show crcModbusAux crc (b :: rest)
          = crcModbusAux (crcModbusRounds 8 (crc ^^^ b)) rest from rfl]
    rw [← crcShift_iterate_eq_rounds]
    exact ih _

/-- Claim C5: for every byte string, `crc16` equals the Modbus CRC-16
reference definition (initial value 0xFFFF, polynomial 0xA001, per byte
`crc ^= byte` followed by 8 LSB-first shift steps, no final XOR); in
particular `crc16` of the empty string is 0xFFFF. -/
theorem crc16_is_modbus_reference :
    (∀ data : List Nat, crc16 data = crc16Modbus data) ∧ crc16 [] = 0xFFFF :=
  ⟨fun data => crc16_foldl_eq_aux data 0xFFFF, rfl⟩

/-! ## UIMessage codec (src/uir/uimessage.py) -/

/-- The effect of `struct.pack` format `8s` on the data field: right-pad with
zero bytes to 8 bytes (truncating longer input). -/
def pad8 (data : List Nat) : List Nat :=
  data.take 8 ++ List.replicate (8 - data.length) 0

/-- The UIMessage dataclass, with the Python field defaults. -/
structure UIMessage where
  device_id : Nat
  function_code : Nat
  data : List Nat
  need_checksum : Bool := true
  need_ack : Bool := false
  aux_byte : Nat := 0x00
  checksum : Nat := 0x0000
deriving DecidableEq

/-- The inner `pack(checksum)` helper of `UIMessage.serialize`: lay out the
16-byte frame `<BBBB8sBHB` with the given checksum value. -/
def UIMessage.packWith (m : UIMessage) (checksum : Nat) : List Nat :=
  [cond m.need_checksum 0xAA 0xAD,
   m.device_id,
   ((cond m.need_ack 1 0) <<< 7) ||| m.function_code,
   m.data.length]
  ++ pad8 m.data
  ++ [m.aux_byte, checksum % 256, checksum / 256 % 256, 0xCC]

/-- The slice `packet[1:-3]` that the checksum is computed over
(bytes 1..12 of a 16-byte frame). -/
def checksumRegion (p : List Nat) : List Nat :=
  (p.drop 1).take (p.length - 4)

/-- `UIMessage.serialize`: pack with the stored checksum; if `need_checksum`,
pack again with the CRC-16 of bytes 1..12 of the first layout. -/
def UIMessage.serialize (m : UIMessage) : List Nat :=
  let out := m.packWith m.checksum
  if m.need_checksum then m.packWith (crc16 (checksumRegion out)) else out

/-- Decode failure modes.  The Python decoder signals these with `assert`
(ShortFrame via `struct.error`); the checksummed-frame CRC test lives in the
bridge receive path and is modelled by `receive` below. -/
inductive DecodeError where
  | ShortFrame
  | BadSOM
  | BadEOM
  | BadLength
  | BadChecksum
deriving DecidableEq

/-- `UIMessage.deserialize`: unpack `<BBBB8sBHB`, check the SOM, EOM and
data-length invariants, truncate the data to `data_length`, and split the
control word into `need_ack` and `function_code`. -/
def UIMessage.deserialize (p : List Nat) : Except DecodeError UIMessage :=
  if p.length ≠ 16 then .error .ShortFrame else
  let som := p.getD 0 0
  let control_word := p.getD 2 0
  let data_length := p.getD 3 0
  if som ≠ 0xAA ∧ som ≠ 0xAC ∧ som ≠ 0xAD then .error .BadSOM
  else if p.getD 15 0 ≠ 0xCC then .error .BadEOM
  else if 8 < data_length then .error .BadLength
  else .ok
    { device_id := p.getD 1 0
      function_code := control_word &&& 0x7F
      data := ((p.drop 4).take 8).take data_length
      need_checksum := som == 0xAA
      need_ack := control_word &&& 0x80 != 0
      aux_byte := p.getD 12 0
      checksum := p.getD 13 0 + 256 * p.getD 14 0 }

/-- The per-frame receive path of the bridge (src/uir/util/gateway.py,
`tcp_server` loop body): decode, then drop checksummed frames whose stored
checksum does not match the CRC-16 of bytes 1..12. -/
def receive (p : List Nat) : Except DecodeError UIMessage :=
  match UIMessage.deserialize p with
  | .error e => .error e
  | .ok msg =>
    if msg.need_checksum && (crc16 (checksumRegion p) != msg.checksum) then
      .error .BadChecksum
    else .ok msg

/-- The CRC-16 a checksummed frame for `m` carries: bytes 1..12 of the
layout, which do not depend on the checksum bytes themselves. -/
def frameChecksum (m : UIMessage) : Nat :=
  crc16 ([m.device_id,
          ((cond m.need_ack 1 0) <<< 7) ||| m.function_code,
          m.data.length]
         ++ pad8 m.data ++ [m.aux_byte])

theorem pad8_length (d : List Nat) : (pad8 d).length = 8 := by
  simp only [pad8, List.length_append, List.length_take, List.length_replicate]
  omega

theorem packWith_length (m : UIMessage) (ck : Nat) : (m.packWith ck).length = 16 := by
  simp [UIMessage.packWith, pad8_length]

theorem pad8_take_length {d : List Nat} (h : d.length ≤ 8) :
    (pad8 d).take d.length = d := by
  unfold pad8
  rw [List.take_of_length_le h, List.take_left]

theorem getD_append_right_of_le {l t : List Nat} {n : Nat} (h : l.length ≤ n) (d : Nat) :
    (l ++ t).getD n d = t.getD (n - l.length) d := by
  simp [List.getD_eq_getElem?_getD, List.getElem?_append_right h]

theorem packWith_eq (m : UIMessage) (ck : Nat) :
    m.packWith ck =
      (cond m.need_checksum 0xAA 0xAD) :: m.device_id ::
      (((cond m.need_ack 1 0) <<< 7) ||| m.function_code) :: m.data.length ::
      (pad8 m.data ++ [m.aux_byte, ck % 256, ck / 256 % 256, 0xCC]) := by
  simp [UIMessage.packWith]

theorem checksumRegion_packWith (m : UIMessage) (ck : Nat) :
    checksumRegion (m.packWith ck) =
      [m.device_id,
       ((cond m.need_ack 1 0) <<< 7) ||| m.function_code,
       m.data.length]
      ++ pad8 m.data ++ [m.aux_byte] := by
  unfold checksumRegion
  rw [packWith_length, packWith_eq]
  show (m.device_id :: (((cond m.need_ack 1 0) <<< 7) ||| m.function_code) ::
        m.data.length :: (pad8 m.data ++ [m.aux_byte, ck % 256, ck / 256 % 256, 0xCC])).take 12
      = _
  rw [List.take_succ_cons, List.take_succ_cons, List.take_succ_cons,
      List.take_append_eq_append_take, List.take_of_length_le (by rw [pad8_length]; omega),
      pad8_length]
  rfl

theorem ctrl_word_bits : ∀ fc : Nat, fc < 128 →
    (128 ||| fc) &&& 0x7F = fc ∧ (128 ||| fc) &&& 0x80 = 0x80 ∧
    fc &&& 0x7F = fc ∧ fc &&& 0x80 = 0 := by decide

theorem deserialize_packWith (m : UIMessage) (ck : Nat)
    (h8 : m.data.length ≤ 8) (hfc : m.function_code < 128) (hck : ck < 65536) :
    UIMessage.deserialize (m.packWith ck) = .ok { m with checksum := ck } := by
  have hlen := packWith_length m ck
  have h0 : (m.packWith ck).getD 0 0 = cond m.need_checksum 0xAA 0xAD := by
    rw [packWith_eq]; rfl
  have h1 : (m.packWith ck).getD 1 0 = m.device_id := by
    rw [packWith_eq]; rfl
  have h2 : (m.packWith ck).getD 2 0 = ((cond m.need_ack 1 0) <<< 7) ||| m.function_code := by
    rw [packWith_eq]; rfl
  have h3 : (m.packWith ck).getD 3 0 = m.data.length := by
    rw [packWith_eq]; rfl
  have h12 : (m.packWith ck).getD 12 0 = m.aux_byte := by
    rw [packWith_eq]
    show (pad8 m.data ++ [m.aux_byte, ck % 256, ck / 256 % 256, 0xCC]).getD 8 0 = m.aux_byte
    rw [getD_append_right_of_le (by rw [pad8_length]), pad8_length]
    rfl
  have h13 : (m.packWith ck).getD 13 0 = ck % 256 := by
    rw [packWith_eq]
    show (pad8 m.data ++ [m.aux_byte, ck % 256, ck / 256 % 256, 0xCC]).getD 9 0 = ck % 256
    rw [getD_append_right_of_le (by rw [pad8_length]; omega), pad8_length]
    rfl
  have h14 : (m.packWith ck).getD 14 0 = ck / 256 % 256 := by
    rw [packWith_eq]
    show (pad8 m.data ++ [m.aux_byte, ck % 256, ck / 256 % 256, 0xCC]).getD 10 0
      = ck / 256 % 256
    rw [getD_append_right_of_le (by rw [pad8_length]; omega), pad8_length]
    rfl
  have h15 : (m.packWith ck).getD 15 0 = 0xCC := by
    rw [packWith_eq]
    show (pad8 m.data ++ [m.aux_byte, ck % 256, ck / 256 % 256, 0xCC]).getD 11 0 = 0xCC
    rw [getD_append_right_of_le (by rw [pad8_length]; omega), pad8_length]
    rfl
  have hdata : ((m.packWith ck).drop 4).take 8 = pad8 m.data := by
    rw [packWith_eq]
    show (pad8 m.data ++ [m.aux_byte, ck % 256, ck / 256 % 256, 0xCC]).take 8 = pad8 m.data
    rw [List.take_append_eq_append_take, List.take_of_length_le (by rw [pad8_length]),
        pad8_length]
    simp
  obtain ⟨hb1, hb2, hb3, hb4⟩ := ctrl_word_bits m.function_code hfc
  unfold UIMessage.deserialize
  simp only [hlen, h0, h1, h2, h3, h12, h13, h14, h15, hdata]
  rw [if_neg (show ¬ ((16 : Nat) ≠ 16) by omega)]
  rcases hnc : m.need_checksum <;> rcases hna : m.need_ack <;>
    simp only [hnc, hna, cond_true, cond_false] <;>
    rw [if_neg (by decide), if_neg (by decide), if_neg (by omega)] <;>
    simp [Except.ok.injEq, UIMessage.mk.injEq, hb1, hb2, hb3, hb4,
          Nat.zero_shiftLeft, Nat.zero_or, pad8_take_length h8] <;>
    omega

theorem serialize_eq (m : UIMessage) :
    m.serialize = m.packWith (if m.need_checksum then frameChecksum m else m.checksum) := by
  cases hnc : m.need_checksum
  · simp [UIMessage.serialize, hnc]
  · simp [UIMessage.serialize, hnc, checksumRegion_packWith, frameChecksum]

/-- Claim C1: for every UIMessage constructed with `len(data) ≤ 8` and valid
fields (`function_code` fits in 7 bits, `checksum` in 16 bits, and a
checksummed message carries the matching CRC, as the frame invariant
requires), `deserialize (serialize m)` reproduces every field of `m`; the
padding past `data_length` is discarded by the decoder, so the data field
comes back exactly. -/
theorem deserialize_serialize_roundtrip (m : UIMessage) (h8 : m.data.length ≤ 8)
    (hfc : m.function_code < 128) (hck : m.checksum < 65536)
    (hv : m.need_checksum = true → m.checksum = frameChecksum m) :
    UIMessage.deserialize m.serialize = .ok m := by
  rw [serialize_eq]
  cases hnc : m.need_checksum
  · simp only [hnc, Bool.false_eq_true, if_false]
    exact deserialize_packWith m m.checksum h8 hfc hck
  · simp only [hnc, if_true]
    rw [← hv hnc]
    exact deserialize_packWith m m.checksum h8 hfc hck

/-- A concrete checksummed message whose stored checksum is its frame CRC. -/
def mRoundtrip : UIMessage :=
  { device_id := 2, function_code := 11, data := [1, 2, 3],
    need_checksum := true, need_ack := true, aux_byte := 0, checksum := 25950 }

theorem deserialize_serialize_roundtrip_witness :
    (mRoundtrip.data.length ≤ 8 ∧ mRoundtrip.function_code < 128 ∧
     mRoundtrip.checksum < 65536 ∧
     (mRoundtrip.need_checksum = true → mRoundtrip.checksum = frameChecksum mRoundtrip))
    ∧ UIMessage.deserialize mRoundtrip.serialize = .ok mRoundtrip :=
  ⟨⟨by decide, by decide, by decide, fun _ => by decide⟩,
   deserialize_serialize_roundtrip mRoundtrip (by decide) (by decide) (by decide)
     (fun _ => by decide)⟩

/-- Claim C2 (amended): a 16-byte checksummed input (SOM `0xAA`) whose stored
16-bit checksum differs from the CRC-16 of bytes 1..12 is never decoded
successfully; when the frame passes the structural checks (EOM `0xCC`,
`data_length ≤ 8`) the receive path rejects it as `BadChecksum`. -/
theorem receive_checksum_mismatch
    (b1 b2 b3 b4 b5 b6 b7 b8 b9 b10 b11 b12 b13 b14 b15 : Nat)
    (hck : b13 + 256 * b14 ≠ crc16 [b1, b2, b3, b4, b5, b6, b7, b8, b9, b10, b11, b12]) :
    (∀ msg, receive [0xAA, b1, b2, b3, b4, b5, b6, b7, b8, b9, b10, b11, b12, b13, b14, b15]
      ≠ .ok msg)
    ∧ (b15 = 0xCC → b3 ≤ 8 →
       receive [0xAA, b1, b2, b3, b4, b5, b6, b7, b8, b9, b10, b11, b12, b13, b14, b15]
         = .error .BadChecksum) := by
  have hne : crc16 [b1, b2, b3, b4, b5, b6, b7, b8, b9, b10, b11, b12] ≠ b13 + 256 * b14 :=
    fun h => hck h.symm
  have hdes : UIMessage.deserialize
      [0xAA, b1, b2, b3, b4, b5, b6, b7, b8, b9, b10, b11, b12, b13, b14, b15] =
      (if b15 ≠ 0xCC then .error .BadEOM
       else if 8 < b3 then .error .BadLength
       else .ok { device_id := b1, function_code := b2 &&& 0x7F,
                  data := [b4, b5, b6, b7, b8, b9, b10, b11].take b3,
                  need_checksum := true, need_ack := b2 &&& 0x80 != 0,
                  aux_byte := b12, checksum := b13 + 256 * b14 }) := rfl
  constructor
  · intro msg hok
    unfold receive at hok
    rw [hdes] at hok
    by_cases he : b15 = 0xCC
    · by_cases hl : 8 < b3
      · simp [he, hl] at hok
      · simp [he, hl, hne, checksumRegion] at hok
    · simp [he] at hok
  · intro he hl
    unfold receive
    rw [hdes]
    rw [if_neg (by simp [he])]
    rw [if_neg (by omega)]
    simp [hne, checksumRegion]

theorem receive_checksum_mismatch_witness :
    ((0 : Nat) + 256 * 0 ≠ crc16 [2, 139, 0, 0, 0, 0, 0, 0, 0, 0, 0, 0])
    ∧ receive [0xAA, 2, 139, 0, 0, 0, 0, 0, 0, 0, 0, 0, 0, 0, 0, 0xCC]
        = .error .BadChecksum :=
  ⟨by decide,
   (receive_checksum_mismatch 2 139 0 0 0 0 0 0 0 0 0 0 0 0 0xCC (by decide)).2
     rfl (by decide)⟩

/-- Counterexample to claim C2 as stated: this 16-byte frame has SOM `0xAA`
(checksummed) and a stored checksum that differs from the CRC-16 of bytes
1..12, yet the decoder rejects it as `BadLength` (its `data_length` byte is
9), not `BadChecksum`. -/
theorem receive_mismatch_not_badchecksum_counterexample :
    ((0 : Nat) + 256 * 0 ≠ crc16 [0, 0, 9, 0, 0, 0, 0, 0, 0, 0, 0, 0])
    ∧ receive [0xAA, 0, 0, 9, 0, 0, 0, 0, 0, 0, 0, 0, 0, 0, 0, 0xCC]
        = .error .BadLength
    ∧ DecodeError.BadLength ≠ DecodeError.BadChecksum :=
  ⟨by decide, rfl, by decide⟩

/-! ## SimpleCAN 3.0 arbitration-identifier codec (src/uir/simplecan.py) -/

structure SimpleCANIdentifier where
  producer_id : Nat
  consumer_id : Nat
  control_word : Nat
deriving DecidableEq

def SimpleCANIdentifier.arbitration_id (i : SimpleCANIdentifier) : Nat :=
  let p_lo := i.producer_id &&& 0x1F
  let p_hi := (i.producer_id >>> 5) &&& 0x03
  let c_lo := i.consumer_id &&& 0x1F
  let c_hi := (i.consumer_id >>> 5) &&& 0x03
  (p_lo <<< 24) ||| (c_lo <<< 19) ||| (p_hi <<< 16) ||| (c_hi <<< 14) |||
    (i.control_word &&& 0xFF)

def SimpleCANIdentifier.from_arbitration_id (aid : Nat) : SimpleCANIdentifier :=
  let p_lo := (aid >>> 24) &&& 0x1F
  let p_hi := (aid >>> 16) &&& 0x03
  let c_lo := (aid >>> 19) &&& 0x1F
  let c_hi := (aid >>> 14) &&& 0x03
  { producer_id := (p_hi <<< 5) ||| p_lo
    consumer_id := (c_hi <<< 5) ||| c_lo
    control_word := aid &&& 0xFF }

theorem lor_eq_add_of_dvd {i : Nat} (x y : Nat) (hx : 2 ^ i ∣ x) (hy : y < 2 ^ i) :
    x ||| y = x + y := by
  obtain ⟨a, rfl⟩ := hx
  exact (Nat.mul_add_lt_is_or hy a).symm

theorem and31_eq_mod (x : Nat) : x &&& 31 = x % 32 := by
  have h := Nat.and_pow_two_sub_one_eq_mod x 5
  norm_num at h
  exact h

theorem and3_eq_mod (x : Nat) : x &&& 3 = x % 4 := by
  have h := Nat.and_pow_two_sub_one_eq_mod x 2
  norm_num at h
  exact h

theorem and255_eq_mod (x : Nat) : x &&& 255 = x % 256 := by
  have h := Nat.and_pow_two_sub_one_eq_mod x 8
  norm_num at h
  exact h

theorem five_field_pack (a b c2 d2 e2 : Nat)
    (hb : b < 32) (hc2 : c2 < 4) (hd2 : d2 < 4) (he2 : e2 < 256) :
    (a <<< 24) ||| (b <<< 19) ||| (c2 <<< 16) ||| (d2 <<< 14) ||| e2
      = a * 2 ^ 24 + b * 2 ^ 19 + c2 * 2 ^ 16 + d2 * 2 ^ 14 + e2 := by
  rw [Nat.shiftLeft_eq, Nat.shiftLeft_eq, Nat.shiftLeft_eq, Nat.shiftLeft_eq]
  rw [lor_eq_add_of_dvd (i := 24) (a * 2 ^ 24) (b * 2 ^ 19) ⟨a, by ring⟩ (by omega)]
  rw [lor_eq_add_of_dvd (i := 18) (a * 2 ^ 24 + b * 2 ^ 19) (c2 * 2 ^ 16)
        ⟨a * 2 ^ 6 + b * 2, by ring⟩ (by omega)]
  rw [lor_eq_add_of_dvd (i := 16) (a * 2 ^ 24 + b * 2 ^ 19 + c2 * 2 ^ 16) (d2 * 2 ^ 14)
        ⟨a * 2 ^ 8 + b * 2 ^ 3 + c2, by ring⟩ (by omega)]
  rw [lor_eq_add_of_dvd (i := 14)
        (a * 2 ^ 24 + b * 2 ^ 19 + c2 * 2 ^ 16 + d2 * 2 ^ 14) e2
        ⟨a * 2 ^ 10 + b * 2 ^ 5 + c2 * 2 ^ 2 + d2, by ring⟩ (by omega)]

theorem arbitration_id_eq (p c w : Nat) (hp : p < 128) (hc : c < 128) (hw : w < 256) :
    SimpleCANIdentifier.arbitration_id ⟨p, c, w⟩ =
      (p % 32) * 2 ^ 24 + (c % 32) * 2 ^ 19 + (p / 32) * 2 ^ 16 + (c / 32) * 2 ^ 14 + w := by
  show ((p &&& 31) <<< 24) ||| ((c &&& 31) <<< 19) ||| (((p >>> 5) &&& 3) <<< 16) |||
        (((c >>> 5) &&& 3) <<< 14) ||| (w &&& 255) = _
  have e1 : p &&& 31 = p % 32 := and31_eq_mod p
  have e2 : c &&& 31 = c % 32 := and31_eq_mod c
  have e3 : (p >>> 5) &&& 3 = p / 32 := by
    rw [and3_eq_mod, Nat.shiftRight_eq_div_pow]; omega
  have e4 : (c >>> 5) &&& 3 = c / 32 := by
    rw [and3_eq_mod, Nat.shiftRight_eq_div_pow]; omega
  have e5 : w &&& 255 = w := by rw [and255_eq_mod]; omega
  rw [e1, e2, e3, e4, e5]
  exact five_field_pack _ _ _ _ _ (by omega) (by omega) (by omega) (by omega)

theorem unpack_pack (p c w : Nat) (hp : p < 128) (hc : c < 128) (hw : w < 256) :
    SimpleCANIdentifier.from_arbitration_id
      (SimpleCANIdentifier.arbitration_id ⟨p, c, w⟩) = ⟨p, c, w⟩ := by
  rw [arbitration_id_eq p c w hp hc hw]
  set S := (p % 32) * 2 ^ 24 + (c % 32) * 2 ^ 19 + (p / 32) * 2 ^ 16 + (c / 32) * 2 ^ 14 + w
    with hS
  have d24 : S >>> 24 = S / 16777216 := by rw [Nat.shiftRight_eq_div_pow]
  have d19 : S >>> 19 = S / 524288 := by rw [Nat.shiftRight_eq_div_pow]
  have d16 : S >>> 16 = S / 65536 := by rw [Nat.shiftRight_eq_div_pow]
  have d14 : S >>> 14 = S / 16384 := by rw [Nat.shiftRight_eq_div_pow]
  have e24 : S / 16777216 = p % 32 := by
    rw [show S = 16777216 * (p % 32)
          + (524288 * (c % 32) + 65536 * (p / 32) + 16384 * (c / 32) + w) by omega]
    rw [Nat.mul_add_div (by norm_num),
        Nat.div_eq_of_lt (show 524288 * (c % 32) + 65536 * (p / 32) + 16384 * (c / 32) + w
          < 16777216 by omega)]
    omega
  have e19 : S / 524288 = (p % 32) * 32 + c % 32 := by
    rw [show S = 524288 * ((p % 32) * 32 + c % 32)
          + (65536 * (p / 32) + 16384 * (c / 32) + w) by omega]
    rw [Nat.mul_add_div (by norm_num),
        Nat.div_eq_of_lt (show 65536 * (p / 32) + 16384 * (c / 32) + w < 524288 by omega)]
    omega
  have e16 : S / 65536 = (p % 32) * 256 + (c % 32) * 8 + p / 32 := by
    rw [show S = 65536 * ((p % 32) * 256 + (c % 32) * 8 + p / 32)
          + (16384 * (c / 32) + w) by omega]
    rw [Nat.mul_add_div (by norm_num),
        Nat.div_eq_of_lt (show 16384 * (c / 32) + w < 65536 by omega)]
    omega
  have e14 : S / 16384 = (p % 32) * 1024 + (c % 32) * 32 + (p / 32) * 4 + c / 32 := by
    rw [show S = 16384 * ((p % 32) * 1024 + (c % 32) * 32 + (p / 32) * 4 + c / 32) + w
          by omega]
    rw [Nat.mul_add_div (by norm_num), Nat.div_eq_of_lt (show w < 16384 by omega)]
    omega
  have m24 : (S >>> 24) &&& 31 = p % 32 := by rw [d24, and31_eq_mod, e24]; omega
  have m19 : (S >>> 19) &&& 31 = c % 32 := by rw [d19, and31_eq_mod, e19]; omega
  have m16 : (S >>> 16) &&& 3 = p / 32 := by rw [d16, and3_eq_mod, e16]; omega
  have m14 : (S >>> 14) &&& 3 = c / 32 := by rw [d14, and3_eq_mod, e14]; omega
  have mw : S &&& 255 = w := by rw [and255_eq_mod]; omega
  simp only [SimpleCANIdentifier.from_arbitration_id]
  rw [SimpleCANIdentifier.mk.injEq]
  refine ⟨?_, ?_, ?_⟩
  · rw [m24, m16, Nat.shiftLeft_eq]
    rw [lor_eq_add_of_dvd (i := 5) ((p / 32) * 2 ^ 5) (p % 32) ⟨p / 32, by ring⟩ (by omega)]
    omega
  · rw [m19, m14, Nat.shiftLeft_eq]
    rw [lor_eq_add_of_dvd (i := 5) ((c / 32) * 2 ^ 5) (c % 32) ⟨c / 32, by ring⟩ (by omega)]
    omega
  · exact mw

/-- Claim C3: for all `p < 128`, `c < 128`, `w < 256`, unpacking the packed
29-bit arbitration identifier returns exactly the original
`(producer_id, consumer_id, control_word)` triple. -/
theorem simplecan_arbitration_roundtrip (p c w : Nat)
    (hp : p < 128) (hc : c < 128) (hw : w < 256) :
    SimpleCANIdentifier.from_arbitration_id
      (SimpleCANIdentifier.arbitration_id ⟨p, c, w⟩) = ⟨p, c, w⟩ :=
  unpack_pack p c w hp hc hw

theorem simplecan_arbitration_roundtrip_witness :
    (5 : Nat) < 128 ∧ (9 : Nat) < 128 ∧ (200 : Nat) < 256 ∧
    SimpleCANIdentifier.from_arbitration_id
      (SimpleCANIdentifier.arbitration_id ⟨5, 9, 200⟩) = ⟨5, 9, 200⟩ :=
  ⟨by decide, by decide, by decide,
   simplecan_arbitration_roundtrip 5 9 200 (by decide) (by decide) (by decide)⟩

/-! ## Protocol constants (src/uir/constants.py) -/

namespace FunctionCode

def PROTOCOL_PARAMETER : Nat := 0x01

def WAKE_NODE : Nat := 0x06

def MODEL : Nat := 0x0B

def SERIAL_NUMBER : Nat := 0x0C

def ERROR_REPORT : Nat := 0x0F

def SYSTEM_OPERATION : Nat := 0x7E

end FunctionCode

namespace GatewayModel

/-- Model bytes of the UIM2523 gateway. -/
def UIM2523 : List Nat := [0x19, 0x17]

end GatewayModel

namespace ReservedNodeIDs

def MASTER : Nat := 4

def UIM2523 : Nat := 2

def UIM2513 : Nat := 3

end ReservedNodeIDs

namespace ReservedGroupIDs

def GLOBAL : Nat := 0

end ReservedGroupIDs

namespace ProtocolParameter

def RS232_BAUD : Nat := 1

def CAN_BITRATE : Nat := 5

def NODE_ID : Nat := 7

end ProtocolParameter

namespace CANBitrate

def KBPS_500 : Nat := 2

/-- The values of the `CANBitrate` enumeration; `CANBitrate(v)` succeeds in
Python exactly when `v` is one of these. -/
def values : List Nat := [0, 1, 2, 3, 4]

end CANBitrate

/-! ## Simulated gateway responder (src/uir/device.py, `SimUIGateway`) -/

/-- A Python exception escaping a handler. -/
inductive PyError where
  | IndexError
  | ValueError
  | AssertionError
  | NotImplementedError
  | StructError
deriving DecidableEq

/-- The mutable state of a `SimUIGateway` instance. -/
structure GatewayState where
  node_id : Nat
  group_id : Nat
  can_bitrate : Nat
  serial_number : Nat
  manufacturer_id : Nat
  vendor_id : Nat
deriving DecidableEq

/-- The `SimUIGateway` constructor with its default arguments
(`group_id = None` falls back to `node_id`). -/
def SimUIGateway.init (node_id : Nat) : GatewayState :=
  { node_id := node_id, group_id := node_id, can_bitrate := CANBitrate.KBPS_500,
    serial_number := 1234512345, manufacturer_id := 0x4141, vendor_id := 0x4242 }

/-- The outcome of one `handle_message` call: the state after the call, the
messages written to the transport, and the exception that escaped, if any. -/
structure HandleResult where
  state : GatewayState
  sent : List UIMessage
  err : Option PyError
deriving DecidableEq

/-- Little-endian byte layout of a `u16` (struct format `<H`). -/
def u16le (n : Nat) : List Nat :=
  [n % 256, n / 256 % 256]

/-- Little-endian byte layout of a `u32` (struct format `<L`). -/
def u32le (n : Nat) : List Nat :=
  [n % 256, n / 256 % 256, n / 65536 % 256, n / 16777216 % 256]

/-- The reply of `SimUIGateway.handle_get_model`: model bytes, two reserved
bytes, firmware version, two reserved bytes. -/
def handle_get_model (s : GatewayState) : UIMessage :=
  { device_id := s.node_id, function_code := FunctionCode.MODEL,
    data := GatewayModel.UIM2523 ++ [0x00, 0x00, 0x69, 0x7A, 0x00, 0x00] }

/-- The reply of `SimUIGateway.handle_get_serial_number`:
`struct.pack('<LHH', serial_number, manufacturer_id, vendor_id)`. -/
def handle_get_serial_number (s : GatewayState) : UIMessage :=
  { device_id := s.node_id, function_code := FunctionCode.SERIAL_NUMBER,
    data := u32le s.serial_number ++ u16le s.manufacturer_id ++ u16le s.vendor_id }

/-- The PROTOCOL_PARAMETER reply: `struct.pack('<BB', CAN_BITRATE, can_bitrate)`. -/
def pp_reply (s : GatewayState) : UIMessage :=
  { device_id := s.node_id, function_code := FunctionCode.PROTOCOL_PARAMETER,
    data := [ProtocolParameter.CAN_BITRATE, s.can_bitrate] }

/-- `SimUIGateway.handle_protocol_parameter`.  `msg.data[0]` raises
`IndexError` on empty data.  A write (`len(msg.data) > 1`) stores `value[0]`
into `can_bitrate` first; the following log line converts it with
`CANBitrate(...)`, which raises `ValueError` when the byte is not one of the
enumeration values (the state keeps the new value, matching Python object
mutation).  Unknown parameter indices fall through silently. -/
def handle_protocol_parameter (s : GatewayState) (msg : UIMessage) : HandleResult :=
  match msg.data with
  | [] => ⟨s, [], some .IndexError⟩
  | param :: value =>
    if param = ProtocolParameter.CAN_BITRATE then
      if 1 < msg.data.length then
        let s' := { s with can_bitrate := value.headD 0 }
        if CANBitrate.values.contains s'.can_bitrate then
          ⟨s', [pp_reply s'], none⟩
        else
          ⟨s', [], some .ValueError⟩
      else
        ⟨s, [pp_reply s], none⟩
    else ⟨s, [], none⟩

/-- `SimUIGateway.handle_message`.  The Python body tests the function codes
in sequence without an else-chain; since the tested codes are distinct
constants, at most one branch fires and the chain below is equivalent.
MODEL without `need_ack` and SERIAL_NUMBER without `need_ack` fall through
all branches and are dropped. -/
def handle_message (s : GatewayState) (msg : UIMessage) : HandleResult :=
  if ¬ (msg.device_id = ReservedGroupIDs.GLOBAL ∨ msg.device_id = s.node_id ∨
        msg.device_id = s.group_id) then
    ⟨s, [], none⟩
  else if msg.function_code = FunctionCode.MODEL ∧ msg.need_ack = true then
    ⟨s, [handle_get_model s], none⟩
  else if msg.function_code = FunctionCode.SERIAL_NUMBER ∧ msg.need_ack = true then
    ⟨s, [handle_get_serial_number s], none⟩
  else if msg.function_code = FunctionCode.PROTOCOL_PARAMETER then
    handle_protocol_parameter s msg
  else ⟨s, [], none⟩

/-- Claim C4: a decoded UIMessage with function code MODEL (0x0B) makes the
responder write a reply if and only if it is addressed to the gateway
(`device_id` global, node id or group id) and `need_ack` is set; otherwise
nothing is written to the reply sink. -/
theorem model_query_reply_iff (s : GatewayState) (m : UIMessage)
    (hfc : m.function_code = FunctionCode.MODEL) :
    ((handle_message s m).sent ≠ [] ↔
      ((m.device_id = ReservedGroupIDs.GLOBAL ∨ m.device_id = s.node_id ∨
        m.device_id = s.group_id) ∧ m.need_ack = true)) := by
  unfold handle_message
  rw [hfc]
  split_ifs with h1 h2 h3 h4 <;>
    simp_all [FunctionCode.MODEL, FunctionCode.SERIAL_NUMBER,
              FunctionCode.PROTOCOL_PARAMETER, List.cons_ne_nil]

theorem model_query_reply_iff_witness :
    (UIMessage.function_code
        { device_id := 0, function_code := 0x0B, data := [], need_ack := true }
      = FunctionCode.MODEL)
    ∧ ((handle_message (SimUIGateway.init ReservedNodeIDs.UIM2523)
          { device_id := 0, function_code := 0x0B, data := [], need_ack := true }).sent ≠ [] ↔
        (((0 : Nat) = ReservedGroupIDs.GLOBAL ∨
          (0 : Nat) = (SimUIGateway.init ReservedNodeIDs.UIM2523).node_id ∨
          (0 : Nat) = (SimUIGateway.init ReservedNodeIDs.UIM2523).group_id) ∧
         true = true)) :=
  ⟨rfl,
   model_query_reply_iff (SimUIGateway.init ReservedNodeIDs.UIM2523)
     { device_id := 0, function_code := 0x0B, data := [], need_ack := true } rfl⟩

/-- Claim C7 fails on the code: `handle_protocol_parameter` evaluates
`msg.data[0]` before any length check, so a PROTOCOL_PARAMETER message with
`data_length = 0` addressed to the gateway raises `IndexError` out of
`handle_message`, and a CAN_BITRATE write whose value byte is outside the
`CANBitrate` enumeration raises `ValueError` from the logging line (after
mutating the state).  Both contradict the spec rule that the responder
recovers every data-path fault locally and never raises to the transport. -/
theorem handle_message_raises_on_faulty_pp :
    ((handle_message (SimUIGateway.init ReservedNodeIDs.UIM2523)
        { device_id := 0, function_code := FunctionCode.PROTOCOL_PARAMETER,
          data := [] }).err = some PyError.IndexError)
    ∧ ((handle_message (SimUIGateway.init ReservedNodeIDs.UIM2523)
        { device_id := 0, function_code := FunctionCode.PROTOCOL_PARAMETER,
          data := [5, 7] }).err = some PyError.ValueError)
    ∧ ((handle_message (SimUIGateway.init ReservedNodeIDs.UIM2523)
        { device_id := 0, function_code := FunctionCode.PROTOCOL_PARAMETER,
          data := [5, 7] }).state.can_bitrate = 7) :=
  ⟨rfl, rfl, rfl⟩

/-- Claim C10: `handle_message` never changes `node_id`, `group_id`,
`serial_number`, `manufacturer_id` or `vendor_id`; the only state field it
can change is `can_bitrate`, and only on a PROTOCOL_PARAMETER frame whose
first data byte is CAN_BITRATE and which carries more than one data byte. -/
theorem handle_message_state_effect (s : GatewayState) (m : UIMessage) :
    (handle_message s m).state.node_id = s.node_id ∧
    (handle_message s m).state.group_id = s.group_id ∧
    (handle_message s m).state.serial_number = s.serial_number ∧
    (handle_message s m).state.manufacturer_id = s.manufacturer_id ∧
    (handle_message s m).state.vendor_id = s.vendor_id ∧
    ((handle_message s m).state.can_bitrate ≠ s.can_bitrate →
      m.function_code = FunctionCode.PROTOCOL_PARAMETER ∧
      m.data.headD 0 = ProtocolParameter.CAN_BITRATE ∧ 1 < m.data.length) := by
  unfold handle_message handle_protocol_parameter
  rcases hd : m.data with _ | ⟨param, value⟩ <;>
    simp only [hd] <;>
    split_ifs <;>
    simp_all [List.headD]

theorem handle_message_state_effect_witness :
    ((handle_message (SimUIGateway.init ReservedNodeIDs.UIM2523)
        { device_id := 2, function_code := 1, data := [5, 3] }).state.node_id
      = (SimUIGateway.init ReservedNodeIDs.UIM2523).node_id) ∧
    ((handle_message (SimUIGateway.init ReservedNodeIDs.UIM2523)
        { device_id := 2, function_code := 1, data := [5, 3] }).state.group_id
      = (SimUIGateway.init ReservedNodeIDs.UIM2523).group_id) ∧
    ((handle_message (SimUIGateway.init ReservedNodeIDs.UIM2523)
        { device_id := 2, function_code := 1, data := [5, 3] }).state.serial_number
      = (SimUIGateway.init ReservedNodeIDs.UIM2523).serial_number) ∧
    ((handle_message (SimUIGateway.init ReservedNodeIDs.UIM2523)
        { device_id := 2, function_code := 1, data := [5, 3] }).state.manufacturer_id
      = (SimUIGateway.init ReservedNodeIDs.UIM2523).manufacturer_id) ∧
    ((handle_message (SimUIGateway.init ReservedNodeIDs.UIM2523)
        { device_id := 2, function_code := 1, data := [5, 3] }).state.vendor_id
      = (SimUIGateway.init ReservedNodeIDs.UIM2523).vendor_id) ∧
    ((handle_message (SimUIGateway.init ReservedNodeIDs.UIM2523)
        { device_id := 2, function_code := 1, data := [5, 3] }).state.can_bitrate
        ≠ (SimUIGateway.init ReservedNodeIDs.UIM2523).can_bitrate →
      UIMessage.function_code { device_id := 2, function_code := 1, data := [5, 3] }
          = FunctionCode.PROTOCOL_PARAMETER ∧
      List.headD (UIMessage.data { device_id := 2, function_code := 1, data := [5, 3] }) 0
          = ProtocolParameter.CAN_BITRATE ∧
      1 < (UIMessage.data { device_id := 2, function_code := 1, data := [5, 3] }).length) :=
  handle_message_state_effect (SimUIGateway.init ReservedNodeIDs.UIM2523)
    { device_id := 2, function_code := 1, data := [5, 3] }

/-! ## TCP/CAN bridge (src/uir/util/gateway.py) -/

/-- A python-can message as used by the bridge: extended arbitration id,
data-length code, payload. -/
structure CanMessage where
  arbitration_id : Nat
  dlc : Nat
  data : List Nat
deriving DecidableEq

/-- The module-level responder instance:
`SimUIGateway(node_id=ReservedNodeIDs.UIM2523)`. -/
def gateway : GatewayState :=
  SimUIGateway.init ReservedNodeIDs.UIM2523

/-- Stream-to-CAN translation of the `tcp_server` loop: the identifier is
built from `producer_id = gateway.node_id`, `consumer_id = msg.device_id`,
`control_word = (need_ack << 7) | function_code`; dlc and payload come from
the decoded (already truncated) `msg.data`. -/
def tcp_to_can (s : GatewayState) (msg : UIMessage) : CanMessage :=
  let msg_id : SimpleCANIdentifier :=
    { producer_id := s.node_id, consumer_id := msg.device_id,
      control_word := ((cond msg.need_ack 1 0) <<< 7) ||| msg.function_code }
  { arbitration_id := msg_id.arbitration_id, dlc := msg.data.length, data := msg.data }

/-- One iteration of the `tcp_server` per-frame loop: decode and
checksum-check (`receive`); a dropped frame produces nothing; otherwise the
responder handles the frame (an escaping exception aborts the iteration
before the CAN publish) and the frame is republished on the CAN bus. -/
def tcp_handle_packet (s : GatewayState) (p : List Nat) :
    GatewayState × List UIMessage × Option CanMessage :=
  match receive p with
  | .error _ => (s, [], none)
  | .ok msg =>
    match handle_message s msg with
    | ⟨s', sent, some _⟩ => (s', sent, none)
    | ⟨s', sent, none⟩ => (s', sent, some (tcp_to_can s' msg))

/-- `on_can_message`: unpack the arbitration id, rebuild a UIMessage
(`need_checksum` keeps its `true` default), and write its encoding to every
sink in the connection set; a dlc above 8 fails the assert. -/
def on_can_message {α : Type} (sinks : List α) (msg : CanMessage) :
    Option (List (α × List Nat)) :=
  let msg_id := SimpleCANIdentifier.from_arbitration_id msg.arbitration_id
  let need_ack := msg_id.control_word &&& 0x80 != 0
  let function_code := msg_id.control_word &&& 0x7F
  if 8 < msg.dlc then none
  else
    let tcp_msg : UIMessage :=
      { device_id := msg_id.producer_id, function_code := function_code,
        data := msg.data.take msg.dlc, need_ack := need_ack }
    some (sinks.map (fun sink => (sink, tcp_msg.serialize)))

/-- Claim C9: a CAN frame with packed identifier `(p, c, w)` and `dlc ≤ 8`
is rebroadcast to every connection in the set as the 16-byte encoding of the
UIMessage with `device_id = p` (the unpacked producer id), function code and
need-ack flag taken from the low 7 bits and high bit of the unpacked control
word, data the first `dlc` payload bytes, and `need_checksum = true`. -/
theorem can_to_stream_fanout {α : Type} (sinks : List α) (p c w dlc : Nat)
    (payload : List Nat) (hp : p < 128) (hc : c < 128) (hw : w < 256) (hdlc : dlc ≤ 8) :
    on_can_message sinks
        { arbitration_id := SimpleCANIdentifier.arbitration_id ⟨p, c, w⟩,
          dlc := dlc, data := payload }
      = some (sinks.map (fun sink => (sink, UIMessage.serialize
          { device_id := p, function_code := w &&& 0x7F, data := payload.take dlc,
            need_checksum := true, need_ack := w &&& 0x80 != 0 })))
    ∧ (UIMessage.serialize
        { device_id := p, function_code := w &&& 0x7F, data := payload.take dlc,
          need_checksum := true, need_ack := w &&& 0x80 != 0 }).length = 16 := by
  constructor
  · unfold on_can_message
    simp only [unpack_pack p c w hp hc hw]
    rw [if_neg (by omega)]
  · rw [serialize_eq]
    exact packWith_length _ _

theorem can_to_stream_fanout_witness :
    (7 : Nat) < 128 ∧ (0 : Nat) < 128 ∧ (0x0F : Nat) < 256 ∧ (2 : Nat) ≤ 8 ∧
    (on_can_message [1, 2]
        { arbitration_id := SimpleCANIdentifier.arbitration_id ⟨7, 0, 0x0F⟩,
          dlc := 2, data := [0xDE, 0xAD] }
      = some (List.map (fun sink => (sink, UIMessage.serialize
          { device_id := 7, function_code := 0x0F &&& 0x7F,
            data := [0xDE, 0xAD].take 2,
            need_checksum := true, need_ack := 0x0F &&& 0x80 != 0 })) [1, 2])) :=
  ⟨by decide, by decide, by decide, by decide,
   (can_to_stream_fanout [1, 2] 7 0 0x0F 2 [0xDE, 0xAD]
      (by decide) (by decide) (by decide) (by decide)).1⟩

/-- A valid checksummed MODEL query addressed to node 9 (not the gateway):
`AA 09 8B 00` followed by zero data, aux 0, CRC `F4 F8` (63732), EOM `CC`. -/
def pktForNode9 : List Nat :=
  [0xAA, 9, 0x8B, 0, 0, 0, 0, 0, 0, 0, 0, 0, 0, 244, 248, 0xCC]

/-- Claim C6 fails on the code: the bridge in src/uir/util/gateway.py builds
the published identifier with `producer_id = gateway.node_id` (2 for the
UIM2523), not the master id 4 that the spec (and the older bridge in
src/uir/gateway.py) uses.  Evaluated on a concrete valid checksummed frame,
the published CAN frame unpacks to producer id 2. -/
theorem tcp_bridge_publishes_gateway_node_id :
    ((tcp_handle_packet gateway pktForNode9).2.2
      = some { arbitration_id := SimpleCANIdentifier.arbitration_id
                 { producer_id := ReservedNodeIDs.UIM2523, consumer_id := 9,
                   control_word := 0x8B },
               dlc := 0, data := [] })
    ∧ ((SimpleCANIdentifier.from_arbitration_id
          (SimpleCANIdentifier.arbitration_id
            { producer_id := ReservedNodeIDs.UIM2523, consumer_id := 9,
              control_word := 0x8B })).producer_id = ReservedNodeIDs.UIM2523)
    ∧ ReservedNodeIDs.UIM2523 ≠ ReservedNodeIDs.MASTER :=
  ⟨by decide, by decide, by decide⟩

/-! ## Legacy standalone simulator (uir_gateway.py) -/

namespace uir_gateway

/-- The UIMessage dataclass of uir_gateway.py: unlike the package version it
keeps an explicit `data_length` field and the full 8-byte padded data. -/
structure UIMessage where
  device_id : Nat
  function_code : Nat
  data_length : Nat
  data : List Nat
  need_checksum : Bool := true
  need_ack : Bool := false
  aux_byte : Nat := 0x00
  checksum : Nat := 0x0000
deriving DecidableEq

/-- The UIDevice dataclass with its field defaults. -/
structure UIDevice where
  node_id : Nat
  group_ids : List Nat
  can_bitrate : Nat := 2
  serial_number : Nat := 1234512345
  manufacturer_id : Nat := 0x4141
  vendor_id : Nat := 0x4242
deriving DecidableEq

/-- Constructing a UIDevice with the default (empty) group list:
`__post_init__` replaces it with `[0, node_id]`. -/
def UIDevice.init (node_id : Nat) : UIDevice :=
  { node_id := node_id, group_ids := [0, node_id] }

structure HandleResult where
  state : UIDevice
  sent : List UIMessage
  err : Option PyError
deriving DecidableEq

/-- The MODEL reply of `UIDevice.handle_message`. -/
def model_reply (s : UIDevice) : UIMessage :=
  { device_id := s.node_id, function_code := FunctionCode.MODEL, data_length := 8,
    data := GatewayModel.UIM2523 ++ [0x00, 0x00, 0x69, 0x7A, 0x00, 0x00] }

/-- The PROTOCOL_PARAMETER reply: index, current bitrate, six zero bytes. -/
def pp_reply (s : UIDevice) : UIMessage :=
  { device_id := s.node_id, function_code := FunctionCode.PROTOCOL_PARAMETER,
    data_length := 2,
    data := [ProtocolParameter.CAN_BITRATE, s.can_bitrate, 0, 0, 0, 0, 0, 0] }

/-- The SERIAL_NUMBER reply:
`struct.pack('<LHH', serial_number, manufacturer_id, vendor_id)`. -/
def serial_reply (s : UIDevice) : UIMessage :=
  { device_id := s.node_id, function_code := FunctionCode.SERIAL_NUMBER,
    data_length := 8,
    data := u32le s.serial_number ++ u16le s.manufacturer_id ++ u16le s.vendor_id }

/-- `UIDevice.handle_message` of uir_gateway.py.  The three function-code
tests are mutually exclusive, so the sequential non-returning ifs compose as
a chain.  The MODEL branch asserts `need_ack`; the PROTOCOL_PARAMETER branch
raises `NotImplementedError` on every index other than CAN_BITRATE; the
SET CAN BITRATE branch only unpacks into a local, never storing the value.
In the SERIAL_NUMBER write branch (`need_ack` false, `data_length == 4`),
`serial_number, = struct.unpack_from('<L', msg.data)` likewise binds a local
variable, so the stored serial number is left unchanged and the reply packs
the old stored tuple. -/
def UIDevice.handle_message (s : UIDevice) (msg : UIMessage) : HandleResult :=
  if ¬ (msg.device_id ∈ s.group_ids) then ⟨s, [], none⟩
  else if msg.function_code = FunctionCode.MODEL then
    if msg.need_ack = true then ⟨s, [model_reply s], none⟩
    else ⟨s, [], some .AssertionError⟩
  else if msg.function_code = FunctionCode.PROTOCOL_PARAMETER then
    match msg.data with
    | [] => ⟨s, [], some .IndexError⟩
    | index :: _ =>
      if index = ProtocolParameter.CAN_BITRATE then
        if msg.data_length = 1 then ⟨s, [pp_reply s], none⟩
        else if msg.data_length = 2 then
          if 2 ≤ msg.data.length then ⟨s, [pp_reply s], none⟩
          else ⟨s, [], some .StructError⟩
        else ⟨s, [], none⟩
      else ⟨s, [], some .NotImplementedError⟩
  else if msg.function_code = FunctionCode.SERIAL_NUMBER then
    if msg.need_ack = true then ⟨s, [serial_reply s], none⟩
    else if msg.data_length = 4 then
      if 4 ≤ msg.data.length then ⟨s, [serial_reply s], none⟩
      else ⟨s, [], some .StructError⟩
    else ⟨s, [], some .AssertionError⟩
  else ⟨s, [], none⟩

end uir_gateway

/-- Claim C8 fails on the code: a SERIAL_NUMBER frame addressed to the
gateway with `need_ack` false and `data_length == 4` does NOT update the
stored serial number — `serial_number, = struct.unpack_from('<L', msg.data)`
assigns a local variable, not the device field — and the reply it writes
packs the old stored tuple (serial 1234512345 = bytes `D9 29 95 49`), not
the value 0xDEADBEEF carried by the frame.  (The package responder in
src/uir/device.py ignores such a frame entirely.) -/
theorem set_serial_number_not_stored :
    ((uir_gateway.UIDevice.handle_message (uir_gateway.UIDevice.init 2)
        { device_id := 2, function_code := FunctionCode.SERIAL_NUMBER,
          data_length := 4, data := [0xEF, 0xBE, 0xAD, 0xDE, 0, 0, 0, 0],
          need_ack := false }).state.serial_number = 1234512345)
    ∧ ((1234512345 : Nat) ≠ 0xDEADBEEF)
    ∧ ((uir_gateway.UIDevice.handle_message (uir_gateway.UIDevice.init 2)
        { device_id := 2, function_code := FunctionCode.SERIAL_NUMBER,
          data_length := 4, data := [0xEF, 0xBE, 0xAD, 0xDE, 0, 0, 0, 0],
          need_ack := false }).sent
        = [uir_gateway.serial_reply (uir_gateway.UIDevice.init 2)])
    ∧ ((uir_gateway.serial_reply (uir_gateway.UIDevice.init 2)).data.take 4
        = [0xD9, 0x29, 0x95, 0x49]) :=
  ⟨rfl, by decide, rfl, by decide⟩
